import Mathlib

/-
Verification of the error-handling core of the `yefy/anyhow` crate
(a fork of anyhow 1.0.45).

The repository ships `src/lib.rs` (public type and trait declarations,
documentation) and `src/macros.rs` (the `anyhow!`, `bail!`, `ensure!`
macro definitions).  The internal modules `error.rs`, `chain.rs`,
`context.rs`, `fmt.rs`, `kind.rs`, `ptr.rs` and `wrapper.rs` are declared
in `lib.rs` but their sources are not part of the repository, so the core
engine (erased error object, context layering, cause-chain traversal,
downcasting, display/debug formatting) is modelled here from the
specification (spec.md §3, §4, §6).  The `anyhow!` macro arms are
translated directly from `src/macros.rs`.

Rust concrete types are modelled by abstract type identifiers
(`Nat` tags): Rust's `TypeId` comparison is an exact identity test, which
is what `Nat` equality gives us.  A concrete "error-like" value is a type
tag, a display text, and optionally an immediate cause of the same shape.
-/

set_option autoImplicit false

namespace Anyhow

/-- Modelled from the spec: "Error-like value: anything exposing a textual
description and, optionally, a reference to an immediate cause of the same
capability set" (spec.md Glossary, §4.2).  The missing source is
`error.rs`'s handling of `E: StdError`.  `ty` is the abstract type
identifier of the concrete Rust type. -/
inductive ErrValue where
  | base (ty : Nat) (msg : String)
  | withCause (ty : Nat) (msg : String) (cause : ErrValue)
  deriving DecidableEq

/-- Type identifier of an error-like value. -/
def ErrValue.ty : ErrValue → Nat
  | .base t _ => t
  | .withCause t _ _ => t

/-- Textual description (the `Display` text) of an error-like value. -/
def ErrValue.msg : ErrValue → String
  | .base _ m => m
  | .withCause _ m _ => m

/-- Immediate cause reported by an error-like value, if any. -/
def ErrValue.cause : ErrValue → Option ErrValue
  | .base _ _ => none
  | .withCause _ _ c => some c

/-- Modelled from the spec: a context value `C: Display + Send + Sync`
attached by the Context Layer (spec.md §3 ContextPayload); the missing
source is `context.rs`.  It has a concrete type (for downcasting) and a
display text. -/
structure CVal where
  ty : Nat
  msg : String
  deriving DecidableEq

/-- Modelled from the spec: the type-erased payload of an ErrorObject —
"a tagged union / sum type with two variants: plain payload of type `E`
and context payload `{context: C, source: ErrorObject}`" (spec.md §3, §9).
The missing source is `error.rs`/`context.rs`. -/
inductive Payload where
  | plain (e : ErrValue)
  | context (c : CVal) (source : Payload)
  deriving DecidableEq

/-- Modelled from the spec: the `&dyn ErrorLike` view of a node of the
cause chain — a textual description plus an optional further cause
(spec.md §4.1 `source`).  The missing source is `error.rs`'s vtable
`object_ref`. -/
inductive ErrorLike where
  | leaf (msg : String)
  | node (msg : String) (cause : ErrorLike)
  deriving DecidableEq

/-- Display text of a cause-chain node. -/
def ErrorLike.msg : ErrorLike → String
  | .leaf m => m
  | .node m _ => m

/-- The immediate cause of a cause-chain node, absent on the innermost
node. -/
def ErrorLike.cause : ErrorLike → Option ErrorLike
  | .leaf _ => none
  | .node _ c => some c

/-- Error-like view of a concrete error value: its display text followed
by its own reported cause chain. -/
def ErrValue.toEL : ErrValue → ErrorLike
  | .base _ m => .leaf m
  | .withCause _ m c => .node m c.toEL

/-- Modelled from the spec: the error-like view of a payload.  A plain
payload is viewed through the wrapped value's own description and cause;
a context payload displays the context value and reports the wrapped
source as its cause (spec.md §3 ContextPayload, §4.1 `source`). -/
def Payload.toEL : Payload → ErrorLike
  | .plain e => e.toEL
  | .context c src => .node c.msg src.toEL

/-- Modelled from the spec: the heap-owned erased error object held by the
public handle, with an optional captured backtrace ("present or absent,
opaque otherwise", spec.md §4.3).  The missing source is `error.rs`'s
`ErrorImpl` behind `lib.rs` line 376's `Own<ErrorImpl>`. -/
structure Error where
  payload : Payload
  backtrace : Option String
  deriving DecidableEq

/-- Abstract type identifier reserved for the owned message string payload
produced by `Error::msg`; distinct Rust types have distinct identifiers,
and no user error type is the message string type. -/
def msgTypeId : Nat := 0

/-- Modelled from the spec: `Error::msg` — "From a formatted message:
allocate an ErrorObject whose payload is the owned string, vtable bound to
a string-display implementation, cause = none" (spec.md §4.2).  The
missing source is `error.rs`. -/
def Error.msg (s : String) : Error :=
  { payload := .plain (.base msgTypeId s), backtrace := none }

/-- Modelled from the spec: `Error::new` — "From any concrete error-like
value `E`: allocate an ErrorObject whose payload is `E` moved in, vtable
bound to `E`'s operations" (spec.md §4.2).  The missing source is
`error.rs`. -/
def Error.new (e : ErrValue) : Error :=
  { payload := .plain e, backtrace := none }

/-- Modelled from the spec: `context(new_context)` "consumes `self`;
returns a new handle wrapping a ContextPayload `{context: new_context,
source: self's object}`. Always succeeds." (spec.md §4.3).  The missing
source is `context.rs`. -/
def Error.context (h : Error) (c : CVal) : Error :=
  { payload := .context c h.payload, backtrace := h.backtrace }

/-- Modelled from the spec: the `Chain` iterator state — "Cursor state
pointing at the current node in the cause linkage; advancing follows
`source` links until none remain" (spec.md §3).  The missing source is
`chain.rs` behind `lib.rs` lines 400-405. -/
structure Chain where
  state : Option ErrorLike
  deriving DecidableEq

/-- Modelled from the spec: `chain()` returns a lazy sequence over the
cause links, outermost first (spec.md §4.3); the iterator starts at the
full error. -/
def Error.chain (h : Error) : Chain :=
  { state := some h.payload.toEL }

/-- Advancing the chain iterator: yield the current node and move the
cursor to its cause. -/
def Chain.next : Chain → Option ErrorLike × Chain
  | { state := none } => (none, { state := none })
  | { state := some x } => (some x, { state := x.cause })

/-- The full cause chain starting at a node: the node itself, then its
causes, ending at the innermost node that reports no further cause. -/
def ErrorLike.chainList : ErrorLike → List ErrorLike
  | .leaf m => [.leaf m]
  | .node m c => .node m c :: c.chainList

/-- Everything a chain iterator will yield, in order. -/
def Chain.toList : Chain → List ErrorLike
  | { state := none } => []
  | { state := some x } => x.chainList

/-- The messages of the cause chain of a handle, outermost first. -/
def Error.chainMsgs (h : Error) : List String :=
  (Chain.toList h.chain).map ErrorLike.msg

/-- The innermost node of a cause chain: keep following `cause` until none
remains. -/
def ErrorLike.rootCause : ErrorLike → ErrorLike
  | .leaf m => .leaf m
  | .node _ c => c.rootCause

/-- Modelled from the spec: `root_cause()` follows the source links of the
handle's object to the innermost cause (spec.md §4.3).  The missing source
is `error.rs`. -/
def Error.root_cause (h : Error) : ErrorLike :=
  h.payload.toEL.rootCause

/-- What a successful downcast recovers: either the context value of some
layer or the concrete wrapped error value. -/
inductive Recovered where
  | ctx (c : CVal)
  | val (e : ErrValue)
  deriving DecidableEq

/-- Modelled from the spec: borrowing downcast — "downcasting for type `C`
first matches the outer context value's type; downcasting for type `E`
recurses into `source`" (spec.md §3 ContextPayload invariant, §4.3).  The
missing source is `error.rs`'s `object_downcast`/`context_downcast`. -/
def Payload.downcast_ref (t : Nat) : Payload → Option Recovered
  | .plain e => if e.ty = t then some (.val e) else none
  | .context c src => if c.ty = t then some (.ctx c) else src.downcast_ref t

/-- Modelled from the spec: the mutable borrowing downcast uses the same
type-matching rule as the shared one (spec.md §4.3). -/
def Payload.downcast_mut (t : Nat) : Payload → Option Recovered
  | .plain e => if e.ty = t then some (.val e) else none
  | .context c src => if c.ty = t then some (.ctx c) else src.downcast_mut t

/-- Modelled from the spec: consuming downcast on the payload — on a match
the owned value is handed back; "otherwise returns the original handle
unchanged (ownership round-trips losslessly on failure)" (spec.md §4.3).
The missing source is `error.rs`'s `Error::downcast`. -/
def Payload.downcast (t : Nat) : Payload → Except Payload Recovered
  | .plain e => if e.ty = t then .ok (.val e) else .error (.plain e)
  | .context c src =>
    if c.ty = t then .ok (.ctx c)
    else
      match src.downcast t with
      | .ok r => .ok r
      | .error src' => .error (.context c src')

/-- Borrowing downcast on the public handle. -/
def Error.downcast_ref (t : Nat) (h : Error) : Option Recovered :=
  h.payload.downcast_ref t

/-- Mutable borrowing downcast on the public handle. -/
def Error.downcast_mut (t : Nat) (h : Error) : Option Recovered :=
  h.payload.downcast_mut t

/-- Consuming downcast on the public handle; on failure the original
handle is returned unchanged. -/
def Error.downcast (t : Nat) (h : Error) : Except Error Recovered :=
  match h.payload.downcast t with
  | .ok r => .ok r
  | .error p => .error { payload := p, backtrace := h.backtrace }

/-- All type identifiers reachable in the cause chain of an error-like
value: its own type and those of its reported causes. -/
def ErrValue.tys : ErrValue → List Nat
  | .base t _ => [t]
  | .withCause t _ c => t :: c.tys

/-- All type identifiers reachable in a payload's cause chain: every
context layer's type and the wrapped value's types. -/
def Payload.chainTys : Payload → List Nat
  | .plain e => e.tys
  | .context c src => c.ty :: src.chainTys

/-- Display text of the outermost object of an error-like value. -/
def ErrValue.display : ErrValue → String
  | .base _ m => m
  | .withCause _ m _ => m

/-- Modelled from the spec: the vtable `display` of the outermost object —
a context payload displays its context value, a plain payload displays the
wrapped value (spec.md §4.1, §4.3 `message()`).  The missing source is
`error.rs`/`fmt.rs`. -/
def Payload.display : Payload → String
  | .plain e => e.display
  | .context c _ => c.msg

/-- Modelled from the spec: `message()` "delegates to vtable `display` of
the outermost object. Side-effect-free." (spec.md §4.3). -/
def Error.message (h : Error) : String :=
  h.payload.display

/-- Modelled from the spec: the plain `Display` form — "outermost message
only" (spec.md §6).  The missing source is `fmt.rs`. -/
def Error.displayPlain (h : Error) : String :=
  h.message

/-- Messages chained with `": "`, as in the alternate display form. -/
def joinColon : List String → String
  | [] => ""
  | [m] => m
  | m :: n :: rest => m ++ ": " ++ joinColon (n :: rest)

/-- Modelled from the spec: the alternate/verbose `Display` form —
"outermost message followed by `: ` and each cause's message, chained
with `: `" (spec.md §6).  The missing source is `fmt.rs`. -/
def Error.displayAlt (h : Error) : String :=
  joinColon h.chainMsgs

/-- Render the list of further causes, each indented and, when more than
one further cause exists, prefixed with its 0-based ordinal. -/
def numberedCauses : Nat → List String → String
  | _, [] => ""
  | i, c :: rest => "\n    " ++ toString i ++ ": " ++ c ++ numberedCauses (i + 1) rest

/-- The `Caused by:` section of the diagnostic form: absent without
further causes; a single cause is indented without an ordinal; multiple
causes carry 0-based ordinals. -/
def causedBySection : List String → String
  | [] => ""
  | [c] => "\n\nCaused by:\n    " ++ c
  | c :: n :: rest => "\n\nCaused by:" ++ numberedCauses 0 (c :: n :: rest)

/-- The optional trailing backtrace section of the diagnostic form,
present only if a backtrace was captured. -/
def backtraceSection : Option String → String
  | none => ""
  | some b => "\n\nStack backtrace:\n" ++ b

/-- Modelled from the spec: the diagnostic (`Debug`, `{:?}`) form —
"`Error: ` + outermost message, then if further causes exist, a
`Caused by:` section listing each subsequent cause indented, and if more
than one further cause exists, each prefixed with its 0-based ordinal;
followed by an optional `Stack backtrace:` section if a backtrace was
captured" (spec.md §6; example in src/lib.rs lines 306-339).  The missing
source is `fmt.rs`. -/
def Error.debugFmt (h : Error) : String :=
  "Error: " ++ h.chainMsgs.headD ""
    ++ causedBySection h.chainMsgs.tail
    ++ backtraceSection h.backtrace

/-- Shallow embedding of a `&self` method call: `message()` returns its
text alongside the handle it was called on. -/
def Error.messageCall (h : Error) : String × Error :=
  (h.message, h)

/-- Shallow embedding of a `&self` method call: `chain()` returns the
fresh iterator alongside the handle it was built from. -/
def Error.chainCall (h : Error) : Chain × Error :=
  (h.chain, h)

/-- Attach a list of context layers to a handle, the head of the list
becoming the outermost layer. -/
def Error.wrapContexts (cs : List CVal) (h : Error) : Error :=
  cs.foldr (fun c acc => acc.context c) h

/-- The bracketed display text built by every arm of the `anyhow!` macro:
`format!("[{}:{} emsg({})]", file!(), line!(), body)`
(src/macros.rs lines 175, 181, 188). -/
def anyhowFmt (file : String) (line : Nat) (body : String) : String :=
  "[" ++ file ++ ":" ++ toString line ++ " emsg(" ++ body ++ ")]"

/-- The `$msg:literal` arm of `anyhow!` (src/macros.rs lines 170-176):
`Error::msg(format!("[{}:{} emsg({})]", file!(), line!(), format!($msg)))`. -/
def anyhowLit (file : String) (line : Nat) (msg : String) : Error :=
  Error.msg (anyhowFmt file line msg)

/-- The `$err:expr` arm of `anyhow!` (src/macros.rs lines 177-183): the
argument value is `Display`-formatted into the bracketed text and the
result is a plain message error, `Error::msg(format!("[{}:{} emsg({})]",
file!(), line!(), error))`; the commented-out `anyhow_kind().new(error)`
path is not taken. -/
def anyhowExprArm (file : String) (line : Nat) (e : ErrValue) : Error :=
  Error.msg (anyhowFmt file line e.msg)

/-- The `$fmt:expr, $($arg)*` arm of `anyhow!` (src/macros.rs lines
185-189), applied to the already-formatted argument text. -/
def anyhowFmtArm (file : String) (line : Nat) (formatted : String) : Error :=
  Error.msg (anyhowFmt file line formatted)

end Anyhow

namespace Anyhow

theorem ErrorLike.chainList_cons (x : ErrorLike) : ∃ l, x.chainList = x :: l := by
  cases x with
  | leaf m => exact ⟨[], rfl⟩
  | node m c => exact ⟨c.chainList, rfl⟩

theorem ErrorLike.chainList_getLast (x : ErrorLike) :
    x.chainList.getLast? = some x.rootCause := by
  induction x with
  | leaf m => rfl
  | node m c ih =>
    show ((ErrorLike.node m c) :: c.chainList).getLast? = some c.rootCause
    obtain ⟨l, hl⟩ := ErrorLike.chainList_cons c
    rw [hl, List.getLast?_cons_cons, ← hl, ih]

theorem Payload.downcast_miss (t : Nat) (p : Payload) (h : t ∉ p.chainTys) :
    p.downcast t = .error p ∧ p.downcast_ref t = none ∧ p.downcast_mut t = none := by
  induction p with
  | plain e =>
    have hty : e.ty ≠ t := by
      intro he
      apply h
      cases e <;> simp [Payload.chainTys, ErrValue.tys, ErrValue.ty] at he ⊢ <;> simp [he]
    simp [Payload.downcast, Payload.downcast_ref, Payload.downcast_mut, hty]
  | context c src ih =>
    simp only [Payload.chainTys, List.mem_cons, not_or] at h
    obtain ⟨hc, hsrc⟩ := h
    have hcty : c.ty ≠ t := fun he => hc he.symm
    obtain ⟨h1, h2, h3⟩ := ih hsrc
    simp [Payload.downcast, Payload.downcast_ref, Payload.downcast_mut, hcty, h1, h2, h3]

theorem Error.wrapContexts_nil (h : Error) : Error.wrapContexts [] h = h := rfl

theorem Error.wrapContexts_cons (c : CVal) (cs : List CVal) (h : Error) :
    Error.wrapContexts (c :: cs) h = (Error.wrapContexts cs h).context c := rfl

theorem Error.chainMsgs_context (h : Error) (c : CVal) :
    (h.context c).chainMsgs = c.msg :: h.chainMsgs := rfl

theorem Error.wrap_chainMsgs (cs : List CVal) (t : Nat) (m : String) :
    (Error.wrapContexts cs (Error.new (.base t m))).chainMsgs = cs.map CVal.msg ++ [m] := by
  induction cs with
  | nil => rfl
  | cons c cs ih =>
    rw [Error.wrapContexts_cons, Error.chainMsgs_context, ih]
    rfl

theorem Error.wrap_rootCause (cs : List CVal) (t : Nat) (m : String) :
    (Error.wrapContexts cs (Error.new (.base t m))).payload.toEL.rootCause = .leaf m := by
  induction cs with
  | nil => rfl
  | cons c cs ih =>
    rw [Error.wrapContexts_cons]
    show ((Error.wrapContexts cs (Error.new (.base t m))).payload.toEL).rootCause = _
    exact ih

theorem Payload.display_eq_head (p : Payload) :
    (p.toEL.chainList.map ErrorLike.msg).headD "" = p.display := by
  cases p with
  | plain e => cases e <;> rfl
  | context c src => rfl

/-- Claim C1: attaching context `c` to an error of concrete type `E` gives a
handle from which `downcast_ref` recovers `c` at `c`'s type, and a
`downcast_ref` at `E`'s type still succeeds through the source link. -/
theorem context_dual_downcast (e : ErrValue) (c : CVal) :
    Error.downcast_ref c.ty ((Error.new e).context c) = some (.ctx c)
    ∧ (Error.downcast_ref e.ty ((Error.new e).context c)).isSome := by
  constructor
  · simp [Error.downcast_ref, Error.new, Error.context, Payload.downcast_ref]
  · simp only [Error.downcast_ref, Error.new, Error.context, Payload.downcast_ref]
    split
    · simp
    · simp [Payload.downcast_ref]

/-- Claim C2: an error built from a cause-free base message with `k` attached
context layers has a chain of exactly `k+1` entries, listed outermost to
innermost, whose last entry reports no further cause. -/
theorem chain_counts_context_layers (cs : List CVal) (t : Nat) (m : String) :
    (Error.wrapContexts cs (Error.new (.base t m))).chainMsgs = cs.map CVal.msg ++ [m]
    ∧ (Chain.toList (Error.wrapContexts cs (Error.new (.base t m))).chain).length = cs.length + 1
    ∧ (Chain.toList (Error.wrapContexts cs (Error.new (.base t m))).chain).getLast?
        = some (ErrorLike.leaf m) := by
  refine ⟨Error.wrap_chainMsgs cs t m, ?_, ?_⟩
  · have h := congrArg List.length (Error.wrap_chainMsgs cs t m)
    simpa [Error.chainMsgs] using h
  · have h := ErrorLike.chainList_getLast
      (Error.wrapContexts cs (Error.new (.base t m))).payload.toEL
    rw [Error.wrap_rootCause cs t m] at h
    exact h

/-- Claim C3: a consuming downcast at a type matching nothing in the cause chain
returns the original handle unchanged, and the borrowing variants return
`none` on the same mismatch. -/
theorem downcast_mismatch_returns_original (t : Nat) (h : Error)
    (hm : t ∉ h.payload.chainTys) :
    Error.downcast t h = .error h
    ∧ Error.downcast_ref t h = none
    ∧ Error.downcast_mut t h = none := by
  obtain ⟨h1, h2, h3⟩ := Payload.downcast_miss t h.payload hm
  refine ⟨?_, h2, h3⟩
  simp [Error.downcast, h1]

theorem downcast_mismatch_returns_original_witness :
    (5 ∉ (Error.mk (.context ⟨1, "ctx"⟩
        (.plain (.withCause 2 "mid" (.base 3 "root")))) none).payload.chainTys)
    ∧ (Error.downcast 5 (Error.mk (.context ⟨1, "ctx"⟩
          (.plain (.withCause 2 "mid" (.base 3 "root")))) none)
        = .error (Error.mk (.context ⟨1, "ctx"⟩
          (.plain (.withCause 2 "mid" (.base 3 "root")))) none)
      ∧ Error.downcast_ref 5 (Error.mk (.context ⟨1, "ctx"⟩
          (.plain (.withCause 2 "mid" (.base 3 "root")))) none) = none
      ∧ Error.downcast_mut 5 (Error.mk (.context ⟨1, "ctx"⟩
          (.plain (.withCause 2 "mid" (.base 3 "root")))) none) = none) :=
  ⟨by decide, downcast_mismatch_returns_original 5 _ (by decide)⟩

/-- Claim C7: constructing a handle from a concrete error-like value and
downcasting back at its type returns the original value. -/
theorem downcast_roundtrip (e : ErrValue) :
    Error.downcast e.ty (Error.new e) = .ok (.val e) := by
  simp [Error.downcast, Error.new, Payload.downcast]

/-- Claim C8: `root_cause()` is the last element produced by `chain()`. -/
theorem root_cause_eq_chain_last (h : Error) :
    (Chain.toList h.chain).getLast? = some h.root_cause :=
  ErrorLike.chainList_getLast h.payload.toEL

/-- Claim C9: `message()` and `chain()` are side-effect-free reads: the
state-passing embeddings of the borrowing calls hand the handle back
unchanged and repeated calls produce identical results. -/
theorem message_chain_idempotent (h : Error) :
    h.messageCall.2 = h
    ∧ (h.messageCall.2).messageCall.1 = h.messageCall.1
    ∧ h.chainCall.2 = h
    ∧ (h.chainCall.2).chainCall.1 = h.chainCall.1
    ∧ Chain.toList h.chainCall.1 = Chain.toList h.chain :=
  ⟨rfl, rfl, rfl, rfl, rfl⟩

/-- Claim C5: the diagnostic (`{:?}`) form is `Error: ` plus the outermost
message, a `Caused by:` section when further causes exist (indented, with
0-based ordinals only when there is more than one further cause), and a
trailing `Stack backtrace:` section only when a backtrace was captured. -/
theorem debug_diagnostic_format :
    Error.debugFmt (((Error.msg "root").context ⟨1, "middle"⟩).context ⟨2, "outer"⟩)
      = "Error: outer\n\nCaused by:\n    0: middle\n    1: root"
    ∧ Error.debugFmt ((Error.msg "inner").context ⟨2, "outer"⟩)
      = "Error: outer\n\nCaused by:\n    inner"
    ∧ Error.debugFmt (Error.msg "only") = "Error: only"
    ∧ Error.debugFmt (Error.mk (.context ⟨2, "outer"⟩ (.plain (.base 0 "root")))
          (some "bt"))
      = "Error: outer\n\nCaused by:\n    root\n\nStack backtrace:\nbt" :=
  ⟨by decide, by decide, by decide, by decide⟩

/-- Claim C6: the plain display form prints the outermost message only and the
alternate form chains every cause's message with `": "`; a base message
"inner cause"-style value wrapped by one context layer renders as the
context text alone, and as context text, colon, base text. -/
theorem display_plain_and_alternate (inner outer : String) (cty : Nat) :
    Error.displayPlain ((Error.msg inner).context ⟨cty, outer⟩) = outer
    ∧ Error.displayAlt ((Error.msg inner).context ⟨cty, outer⟩) = outer ++ ": " ++ inner
    ∧ ∀ h : Error, Error.displayPlain h = h.chainMsgs.headD "" :=
  ⟨rfl, rfl, fun h => (Payload.display_eq_head h.payload).symm⟩

/-- Claim C4: every arm of the `anyhow!` macro builds its error through
`Error::msg` with display text `[<file>:<line> emsg(<argument>)]`; in
particular the expression arm applied to a concrete error value `E`
yields a plain message error that cannot be downcast back to `E` and
whose chain has a single cause-free entry. -/
theorem anyhow_expr_arm_plain_message (file : String) (line : Nat) (e : ErrValue)
    (s : String) (hty : e.ty ≠ msgTypeId) :
    Error.message (anyhowExprArm file line e) = anyhowFmt file line e.msg
    ∧ anyhowExprArm file line e = Error.msg (anyhowFmt file line e.msg)
    ∧ Error.downcast_ref e.ty (anyhowExprArm file line e) = none
    ∧ Chain.toList (anyhowExprArm file line e).chain
        = [ErrorLike.leaf (anyhowFmt file line e.msg)]
    ∧ anyhowLit file line s = Error.msg (anyhowFmt file line s)
    ∧ anyhowFmtArm file line s = Error.msg (anyhowFmt file line s) := by
  refine ⟨rfl, rfl, ?_, rfl, rfl, rfl⟩
  cases e with
  | base a b =>
    simp only [ErrValue.ty] at hty
    simp only [anyhowExprArm, Error.downcast_ref, Error.msg, Payload.downcast_ref,
      ErrValue.ty]
    rw [if_neg (Ne.symm hty)]
  | withCause a b c =>
    simp only [ErrValue.ty] at hty
    simp only [anyhowExprArm, Error.downcast_ref, Error.msg, Payload.downcast_ref,
      ErrValue.ty]
    rw [if_neg (Ne.symm hty)]

theorem anyhow_expr_arm_plain_message_witness :
    ((ErrValue.withCause 7 "boom" (.base 8 "io")).ty ≠ msgTypeId)
    ∧ (Error.message (anyhowExprArm "main.rs" 3 (.withCause 7 "boom" (.base 8 "io")))
        = anyhowFmt "main.rs" 3 (ErrValue.withCause 7 "boom" (.base 8 "io")).msg
      ∧ anyhowExprArm "main.rs" 3 (.withCause 7 "boom" (.base 8 "io"))
        = Error.msg (anyhowFmt "main.rs" 3 (ErrValue.withCause 7 "boom" (.base 8 "io")).msg)
      ∧ Error.downcast_ref (ErrValue.withCause 7 "boom" (.base 8 "io")).ty
          (anyhowExprArm "main.rs" 3 (.withCause 7 "boom" (.base 8 "io"))) = none
      ∧ Chain.toList (anyhowExprArm "main.rs" 3 (.withCause 7 "boom" (.base 8 "io"))).chain
        = [ErrorLike.leaf (anyhowFmt "main.rs" 3
            (ErrValue.withCause 7 "boom" (.base 8 "io")).msg)]
      ∧ anyhowLit "main.rs" 3 "hi" = Error.msg (anyhowFmt "main.rs" 3 "hi")
      ∧ anyhowFmtArm "main.rs" 3 "hi" = Error.msg (anyhowFmt "main.rs" 3 "hi")) :=
  ⟨by decide, anyhow_expr_arm_plain_message "main.rs" 3 _ "hi" (by decide)⟩

end Anyhow
